import Mathlib

/-!
Verification development for the azsure ephemeral-link service (`src/main.py`).

The service stores message records in a single SQLite table keyed by a random
token, saves optional uploaded images under a token-derived filename, sends a
notification email, and serves two retrieval endpoints (`/view/{token}` and
`/image/{token}`) that delete expired records lazily on first access.

Shallow embedding conventions:
* Timestamps (`time.time()`, `expires_at`, `created_at`) are modelled as `Int`;
  only additions and order comparisons of timestamps occur in the code, so the
  integer model is order-faithful.
* The SQLite table is a `List Message`; `INSERT` appends (and fails on a
  primary-key collision, as SQLite raises `IntegrityError`), `DELETE ... WHERE
  token = ?` filters, `SELECT ... WHERE token = ?` is `List.find?`.
* The filesystem is the list of existing paths; writing the uploaded file
  inserts its path, `os.path.exists` is membership.
* The random token from `secrets.token_urlsafe(24)` and the current time are
  passed to `send_link` as explicit parameters.
* The outbound ACS email call either succeeds (modelled by appending the email
  to the state's `emails` log) or raises; the boolean `emailOk` parameter
  selects which, covering both missing-configuration and provider failures.
* Python truthiness on optional strings (`not image_url`) is `strTruthy`:
  `None` and the empty string are falsy.
-/

namespace Azsure

/-- A row of the `messages` table (`CREATE TABLE` in `init_db`). -/
structure Message where
  token : String
  recipient : String
  subject : String
  text : String
  image_path : Option String
  image_url : Option String
  expires_at : Int
  created_at : Int
deriving DecidableEq, Repr

/-- The mutable world the handlers touch: the database table, the set of
existing files, and the log of successfully sent emails (to, subject, body). -/
structure ServerState where
  db : List Message
  fs : List String
  emails : List (String × String × String)
deriving DecidableEq, Repr

/-- An uploaded file as FastAPI presents it: `UploadFile.filename` is optional.
The handlers never inspect the bytes, only write them to disk. -/
structure UploadFile where
  filename : Option String
deriving DecidableEq, Repr

/-- Models the environment-derived upload directory `UPLOAD_DIR`
(`os.path.join(DATA_DIR, "uploads")`). -/
def UPLOAD_DIR : String := "data/uploads"

/-- Models the environment-derived `BASE_URL` used to build view links. -/
def BASE_URL : String := "http://localhost:8000"

/-- Python truthiness of an optional string: `None` and `""` are falsy. -/
def strTruthy : Option String → Bool
  | none => false
  | some s => !(s == "")

/-- Index of the last occurrence of `c` in `l`, if any. -/
def lastIndexOf (c : Char) : List Char → Option Nat
  | [] => none
  | x :: xs =>
    match lastIndexOf c xs with
    | some i => some (i + 1)
    | none => if x = c then some 0 else none

/-- The extension component of `os.path.splitext(p)` (posixpath): the suffix
starting at the last dot, provided that dot lies after the last path separator
and some character strictly between the separator and the dot is not a dot. -/
def splitextExt (p : String) : String :=
  let l := p.data
  let sepNext := (lastIndexOf '/' l).elim 0 (· + 1)
  match lastIndexOf '.' l with
  | none => ""
  | some d =>
    if ((List.range d).drop sepNext).any (fun j => l.getD j '.' != '.') then
      String.mk (l.drop d)
    else ""

/-- Python `str.lower()` as the character-wise lowercase map (the extension
strings it is applied to are ASCII). -/
def strLower (s : String) : String :=
  String.mk (s.data.map Char.toLower)

/-- The stored extension for an upload:
`os.path.splitext(image.filename or "")[1].lower() or ".png"`. -/
def pickExt (filename : Option String) : String :=
  let e := strLower (splitextExt (filename.getD ""))
  if e = "" then ".png" else e

/-- `fetch_message`: `SELECT * FROM messages WHERE token = ?` then `fetchone`. -/
def fetch_message (token : String) (db : List Message) : Option Message :=
  db.find? (fun m => m.token == token)

/-- `delete_message`: `DELETE FROM messages WHERE token = ?`. -/
def delete_message (token : String) (db : List Message) : List Message :=
  db.filter (fun m => m.token != token)

/-- The form fields of `POST /send`; `to_email` embeds the form field `to`
(a reserved word here), matching the parameter name of `send_email_acs`. -/
structure SendArgs where
  to_email : String
  text : String
  ttl_seconds : Int
  subject : String
  image : Option UploadFile
  image_url : Option String
deriving DecidableEq, Repr

/-- Outcome of `send_link`: 400 when no image source, an `IntegrityError` on a
token primary-key collision, the propagated email exception, or the JSON
success payload. -/
inductive SendResult where
  | badRequest
  | tokenCollision
  | emailFailed
  | sent (link : String) (expires_at : Int)
deriving DecidableEq, Repr

/-- The token-derived storage path of an upload:
`os.path.join(UPLOAD_DIR, f"{token}{ext}")`. -/
def uploadPath (token : String) (img : UploadFile) : String :=
  UPLOAD_DIR ++ "/" ++ token ++ pickExt img.filename

/-- The `image_path` value stored by `send_link`: `None` without an upload,
the token-derived path with one. -/
def sendImagePath (args : SendArgs) (token : String) : Option String :=
  args.image.map (uploadPath token)

/-- The row inserted by `send_link`. -/
def sendRow (args : SendArgs) (token : String) (now : Int) : Message :=
  { token := token, recipient := args.to_email, subject := args.subject,
    text := args.text, image_path := sendImagePath args token,
    image_url := args.image_url, expires_at := now + args.ttl_seconds,
    created_at := now }

/-- The filesystem after `send_link`'s optional file write: unchanged without
an upload, with the token-derived path added when one is written. -/
def sendFs (args : SendArgs) (token : String) (fs : List String) : List String :=
  match sendImagePath args token with
  | none => fs
  | some p => p :: fs

/-- `link = f"{BASE_URL}/view/{token}"`. -/
def viewLink (token : String) : String :=
  BASE_URL ++ "/view/" ++ token

/-- `email_body = f"Open your link (expires in {ttl_seconds} seconds):\n{link}"`. -/
def emailBody (args : SendArgs) (token : String) : String :=
  "Open your link (expires in " ++ toString args.ttl_seconds ++
    " seconds):\n" ++ viewLink token

/-- `send_link` (`POST /send`): rejects with 400 when neither image source is
supplied; otherwise computes the expiry, writes an uploaded file to a
token-derived path, inserts the row, and sends the email. `token`, `now` and
`emailOk` stand for `secrets.token_urlsafe(24)`, `time.time()` and the fate of
the ACS call. -/
def send_link (args : SendArgs) (token : String) (now : Int) (emailOk : Bool)
    (st : ServerState) : SendResult × ServerState :=
  if args.image.isNone && !(strTruthy args.image_url) then
    (.badRequest, st)
  else
    let fs' := sendFs args token st.fs
    if st.db.any (fun m => m.token == token) then
      (.tokenCollision, { st with fs := fs' })
    else
      let db' := st.db ++ [sendRow args token now]
      if emailOk then
        let mail := (args.to_email, args.subject, emailBody args token)
        (.sent (viewLink token) (now + args.ttl_seconds),
          { db := db', fs := fs', emails := st.emails ++ [mail] })
      else
        (.emailFailed, { db := db', fs := fs', emails := st.emails })

/-- Apostrophe, written by code point to keep it out of literals. -/
def apos : Char := Char.ofNat 39

/-- One character of CPython `html.escape(s, quote=True)`. -/
def escChar (c : Char) : List Char :=
  if c = '&' then "&amp;".data
  else if c = '<' then "&lt;".data
  else if c = '>' then "&gt;".data
  else if c = '"' then "&quot;".data
  else if c = apos then "&#x27;".data
  else [c]

/-- `html.escape` on character lists. CPython performs the five replacements
sequentially starting with the ampersand; since no replacement output contains
a character replaced later, this equals the per-character map. -/
def escapeL (l : List Char) : List Char :=
  l.foldr (fun c acc => escChar c ++ acc) []

/-- `html.escape(s, quote=True)` as called by `view`. -/
def escape (s : String) : String :=
  String.mk (escapeL s.data)

/-- One character of `.replace("\n", "<br/>")`. -/
def brCh (c : Char) : List Char :=
  if c = '\n' then "<br/>".data else [c]

/-- `.replace("\n", "<br/>")` on character lists: the pattern is a single
character, so the replacement is the per-character map. -/
def brL (l : List Char) : List Char :=
  l.foldr (fun c acc => brCh c ++ acc) []

/-- `.replace("\n", "<br/>")` on strings. -/
def nlToBr (s : String) : String :=
  String.mk (brL s.data)

/-- `safe_text = escape(row["text"]).replace("\n", "<br/>")` in `view`. -/
def safeText (s : String) : String :=
  nlToBr (escape s)

/-- `img_src = row["image_url"] if row["image_url"] else f"/image/{token}"`. -/
def imgSrc (image_url : Option String) (token : String) : String :=
  match image_url with
  | some u => if u = "" then "/image/" ++ token else u
  | none => "/image/" ++ token

/-- Template text of the view page before the image source. -/
def htmlPre : String :=
  "\n    <!doctype html>\n    <html>\n      <head>\n        <meta charset=\"utf-8\"/>\n" ++
  "        <meta name=\"viewport\" content=\"width=device-width,initial-scale=1\"/>\n" ++
  "        <title>Your message</title>\n        <style>\n          body \x7b\n" ++
  "            font-family: ui-sans-serif, system-ui, -apple-system, Segoe UI, Roboto, Arial;\n" ++
  "            margin: 0;\n            background: #f6f7fb;\n            color: #111827;\n          \x7d\n" ++
  "          .wrap \x7b\n            max-width: 860px;\n            margin: 0 auto;\n" ++
  "            padding: 32px 16px;\n          \x7d\n          .card \x7b\n            background: white;\n" ++
  "            border-radius: 18px;\n            box-shadow: 0 10px 30px rgba(0,0,0,.08);\n" ++
  "            overflow: hidden;\n          \x7d\n          .hero \x7b\n            width: 100%;\n" ++
  "            display: block;\n            object-fit: cover;\n            max-height: 420px;\n" ++
  "            background: #e5e7eb;\n          \x7d\n          .content \x7b\n" ++
  "            padding: 22px 22px 26px;\n          \x7d\n          h1 \x7b\n            font-size: 22px;\n" ++
  "            margin: 0 0 10px;\n            letter-spacing: -0.01em;\n          \x7d\n" ++
  "          .p \x7b\n            font-size: 16px;\n            line-height: 1.6;\n            margin: 0;\n" ++
  "            color: #374151;\n          \x7d\n          .meta \x7b\n            margin-top: 14px;\n" ++
  "            font-size: 12px;\n            color: #9ca3af;\n          \x7d\n        </style>\n" ++
  "      </head>\n      <body>\n        <div class=\"wrap\">\n          <div class=\"card\">\n" ++
  "            <img class=\"hero\" src=\""

/-- Template text between the image source and the escaped message text. -/
def htmlMid : String :=
  "\" alt=\"Image\"/>\n            <div class=\"content\">\n" ++
  "              <h1>To My Beloved...</h1>\n              <p class=\"p\">"

/-- Template text after the escaped message text. -/
def htmlPost : String :=
  "</p>\n              <div class=\"meta\">This link expires automatically.</div>\n" ++
  "            </div>\n          </div>\n        </div>\n      </body>\n    </html>\n    "

/-- The f-string page of `view`, with the two interpolated values. -/
def viewHtml (img_src safe_text : String) : String :=
  htmlPre ++ img_src ++ htmlMid ++ safe_text ++ htmlPost

/-- Body of the 410 response of `view`. -/
def expiredHtml : String := "<h2>Link expired</h2>"

/-- Outcome of `GET /view/{token}`: 404, 410 with the expiry page, or 200 with
the rendered page. -/
inductive ViewResult where
  | notFound
  | gone (html : String)
  | page (html : String)
deriving DecidableEq, Repr

/-- HTTP status of a view outcome. -/
def viewStatus : ViewResult → Nat
  | .notFound => 404
  | .gone _ => 410
  | .page _ => 200

/-- `view` (`GET /view/{token}`): look up the token, 404 if absent, delete and
410 if expired, otherwise render the page with the escaped text. -/
def view (now : Int) (token : String) (st : ServerState) : ViewResult × ServerState :=
  match fetch_message token st.db with
  | none => (.notFound, st)
  | some row =>
    if row.expires_at < now then
      (.gone expiredHtml, { st with db := delete_message token st.db })
    else
      (.page (viewHtml (imgSrc row.image_url token) (safeText row.text)), st)

/-- Outcome of `GET /image/{token}`: 404 for an unknown token, 410 for an
expired record, 404 for a live record with no stored file, or the file. -/
inductive ImageResult where
  | notFound
  | gone
  | noStoredImage
  | file (path : String)
deriving DecidableEq, Repr

/-- HTTP status of an image outcome. -/
def imageStatus : ImageResult → Nat
  | .notFound => 404
  | .gone => 410
  | .noStoredImage => 404
  | .file _ => 200

/-- `get_image` (`GET /image/{token}`): same lookup and expiry handling as
`view`; then 404 unless the recorded path is truthy and exists on disk. -/
def get_image (now : Int) (token : String) (st : ServerState) : ImageResult × ServerState :=
  match fetch_message token st.db with
  | none => (.notFound, st)
  | some row =>
    if row.expires_at < now then
      (.gone, { st with db := delete_message token st.db })
    else
      match row.image_path with
      | none => (.noStoredImage, st)
      | some p =>
        if p = "" || !(st.fs.contains p) then (.noStoredImage, st)
        else (.file p, st)

/-- The empty state produced by `init_db` on a fresh data directory. -/
def initialState : ServerState := { db := [], fs := [], emails := [] }

/-- Markup safety of rendered character data: every character is harmless, or
the data is built from the five escape entities and the `<br/>` line break. -/
inductive SafeHtml : List Char → Prop where
  | nil : SafeHtml []
  | plain (c : Char) (rest : List Char) :
      c ≠ '&' → c ≠ '<' → c ≠ '>' → c ≠ '"' → c ≠ apos →
      SafeHtml rest → SafeHtml (c :: rest)
  | entity (e : List Char) (rest : List Char) :
      e ∈ ["&amp;".data, "&lt;".data, "&gt;".data, "&quot;".data, "&#x27;".data] →
      SafeHtml rest → SafeHtml (e ++ rest)
  | lineBreak (rest : List Char) :
      SafeHtml rest → SafeHtml ("<br/>".data ++ rest)

/-- The tokens of the DB rows, for the primary-key uniqueness invariant. -/
def tokensNodup (st : ServerState) : Prop :=
  (st.db.map Message.token).Nodup

instance (st : ServerState) : Decidable (tokensNodup st) := by
  unfold tokensNodup; infer_instance

section Helpers

/-- Looking up a token that misses `l₁` continues in `l₂`. -/
theorem fetch_message_append {tok : String} {l₁ l₂ : List Message}
    (h : fetch_message tok l₁ = none) :
    fetch_message tok (l₁ ++ l₂) = fetch_message tok l₂ := by
  unfold fetch_message at h ⊢
  rw [List.find?_append, h, Option.none_or]

/-- After `delete_message tok`, looking up `tok` misses. -/
theorem fetch_message_delete (tok : String) (db : List Message) :
    fetch_message tok (delete_message tok db) = none := by
  simp [fetch_message, delete_message, List.find?_eq_none, List.mem_filter]

/-- A missing token makes the duplicate-key check of the insert fail. -/
theorem any_token_false {tok : String} {db : List Message}
    (h : fetch_message tok db = none) :
    db.any (fun m => m.token == tok) = false := by
  simp [fetch_message, List.find?_eq_none] at h
  simp [List.any_eq_false]
  exact h

/-- Shape of a successful (or email-failing) send: the result value, the
inserted row, the filesystem, and the email log. -/
theorem send_link_state (args : SendArgs) (tok : String) (now : Int)
    (emailOk : Bool) (st : ServerState)
    (himg : (args.image.isNone && !(strTruthy args.image_url)) = false)
    (hfresh : fetch_message tok st.db = none) :
    send_link args tok now emailOk st =
      ((if emailOk then .sent (viewLink tok) (now + args.ttl_seconds)
        else .emailFailed),
       { db := st.db ++ [sendRow args tok now],
         fs := sendFs args tok st.fs,
         emails := if emailOk then
             st.emails ++ [(args.to_email, args.subject, emailBody args tok)]
           else st.emails }) := by
  rw [send_link]
  rw [if_neg (by simp [himg]), if_neg (by simp [any_token_false hfresh])]
  cases emailOk <;> simp

/-- `send_link` with a working email provider: the success payload, state with
the row inserted, the file written, and the email logged. -/
theorem send_link_state_ok (args : SendArgs) (tok : String) (now : Int)
    (st : ServerState)
    (himg : (args.image.isNone && !(strTruthy args.image_url)) = false)
    (hfresh : fetch_message tok st.db = none) :
    send_link args tok now true st =
      (.sent (viewLink tok) (now + args.ttl_seconds),
       { db := st.db ++ [sendRow args tok now],
         fs := sendFs args tok st.fs,
         emails := st.emails ++ [(args.to_email, args.subject, emailBody args tok)] }) := by
  rw [send_link_state args tok now true st himg hfresh]
  simp

/-- `send_link` with a failing email provider: the exception propagates, yet
the row is inserted and the file written; no email is logged. -/
theorem send_link_state_fail (args : SendArgs) (tok : String) (now : Int)
    (st : ServerState)
    (himg : (args.image.isNone && !(strTruthy args.image_url)) = false)
    (hfresh : fetch_message tok st.db = none) :
    send_link args tok now false st =
      (.emailFailed,
       { db := st.db ++ [sendRow args tok now],
         fs := sendFs args tok st.fs,
         emails := st.emails }) := by
  rw [send_link_state args tok now false st himg hfresh]
  simp

/-- `send_link` on a token already present: the insert raises, after the file
write but before any email; the database rows are untouched. -/
theorem send_link_collision (args : SendArgs) (tok : String) (now : Int)
    (emailOk : Bool) (st : ServerState)
    (himg : (args.image.isNone && !(strTruthy args.image_url)) = false)
    (hany : st.db.any (fun m => m.token == tok) = true) :
    send_link args tok now emailOk st =
      (.tokenCollision, { st with fs := sendFs args tok st.fs }) := by
  rw [send_link]
  rw [if_neg (by simp [himg]), if_pos hany]

/-- A token is absent from the table exactly when the duplicate-key check of
the insert fails. -/
theorem fetch_none_iff_any_false (tok : String) (db : List Message) :
    fetch_message tok db = none ↔ db.any (fun m => m.token == tok) = false := by
  simp [fetch_message, List.find?_eq_none, List.any_eq_false]

/-- `get_image` on a live record never changes the state, whatever it serves. -/
theorem get_image_live_state {st : ServerState} {tok : String} {now : Int}
    {row : Message} (hf : fetch_message tok st.db = some row)
    (hlive : ¬ row.expires_at < now) :
    (get_image now tok st).2 = st := by
  simp only [get_image, hf, if_neg hlive]
  cases hip : row.image_path with
  | none => rfl
  | some p =>
    simp only []
    split <;> rfl

/-- Fetching the fresh token after the insert finds the inserted row. -/
theorem fetch_send {tok : String} {db : List Message} {row : Message}
    (hfresh : fetch_message tok db = none) (htok : row.token = tok) :
    fetch_message tok (db ++ [row]) = some row := by
  rw [fetch_message_append hfresh]
  simp [fetch_message, htok]

/-- `view` on a live record renders the page and keeps the state. -/
theorem view_live {st : ServerState} {tok : String} {now : Int} {row : Message}
    (hf : fetch_message tok st.db = some row) (hlive : ¬ row.expires_at < now) :
    view now tok st =
      (.page (viewHtml (imgSrc row.image_url tok) (safeText row.text)), st) := by
  simp [view, hf, hlive]

/-- `view` on an expired record deletes the row and reports 410. -/
theorem view_expired {st : ServerState} {tok : String} {now : Int} {row : Message}
    (hf : fetch_message tok st.db = some row) (hexp : row.expires_at < now) :
    view now tok st =
      (.gone expiredHtml, { st with db := delete_message tok st.db }) := by
  simp [view, hf, hexp]

/-- `view` on an unknown token reports 404 and keeps the state. -/
theorem view_missing {st : ServerState} {tok : String} {now : Int}
    (hf : fetch_message tok st.db = none) :
    view now tok st = (.notFound, st) := by
  simp [view, hf]

/-- `get_image` on an expired record deletes the row and reports 410. -/
theorem get_image_expired {st : ServerState} {tok : String} {now : Int} {row : Message}
    (hf : fetch_message tok st.db = some row) (hexp : row.expires_at < now) :
    get_image now tok st =
      (.gone, { st with db := delete_message tok st.db }) := by
  simp [get_image, hf, hexp]

/-- `get_image` on an unknown token reports 404 and keeps the state. -/
theorem get_image_missing {st : ServerState} {tok : String} {now : Int}
    (hf : fetch_message tok st.db = none) :
    get_image now tok st = (.notFound, st) := by
  simp [get_image, hf]

/-- `get_image` on a live record whose stored path is nonempty and on disk
serves the file. -/
theorem get_image_file {st : ServerState} {tok : String} {now : Int} {row : Message}
    {p : String} (hf : fetch_message tok st.db = some row)
    (hlive : ¬ row.expires_at < now) (hp : row.image_path = some p)
    (hne : p ≠ "") (hfs : p ∈ st.fs) :
    get_image now tok st = (.file p, st) := by
  have hc : st.fs.contains p = true := by simpa using hfs
  simp [get_image, hf, hlive, hp, hne, hc, hfs]

/-- The token-derived upload path is never the empty string. -/
theorem uploadPath_ne_empty (tok : String) (img : UploadFile) :
    uploadPath tok img ≠ "" := by
  intro h
  have : (uploadPath tok img).data = [] := by rw [h]
  simp [uploadPath, UPLOAD_DIR, String.data_append] at this

/-- `brL` on a cons expands the head. -/
theorem brL_cons (c : Char) (l : List Char) : brL (c :: l) = brCh c ++ brL l := rfl

/-- `escapeL` on a cons expands the head. -/
theorem escapeL_cons (c : Char) (l : List Char) :
    escapeL (c :: l) = escChar c ++ escapeL l := rfl

/-- `brL` distributes over append. -/
theorem brL_append (a b : List Char) : brL (a ++ b) = brL a ++ brL b := by
  induction a with
  | nil => rfl
  | cons c l ih => rw [List.cons_append, brL_cons, brL_cons, ih, List.append_assoc]

/-- Escaping then converting newlines yields markup-safe character data. -/
theorem safeHtml_brL_escapeL (l : List Char) : SafeHtml (brL (escapeL l)) := by
  induction l with
  | nil => exact SafeHtml.nil
  | cons c l ih =>
    rw [escapeL_cons, brL_append]
    by_cases h1 : c = '&'
    · subst h1
      have he : brL (escChar '&') = "&amp;".data := by decide
      rw [he]; exact SafeHtml.entity _ _ (by simp) ih
    by_cases h2 : c = '<'
    · subst h2
      have he : brL (escChar '<') = "&lt;".data := by decide
      rw [he]; exact SafeHtml.entity _ _ (by simp) ih
    by_cases h3 : c = '>'
    · subst h3
      have he : brL (escChar '>') = "&gt;".data := by decide
      rw [he]; exact SafeHtml.entity _ _ (by simp) ih
    by_cases h4 : c = '"'
    · subst h4
      have he : brL (escChar '"') = "&quot;".data := by decide
      rw [he]; exact SafeHtml.entity _ _ (by simp) ih
    by_cases h5 : c = apos
    · subst h5
      have he : brL (escChar apos) = "&#x27;".data := by decide
      rw [he]; exact SafeHtml.entity _ _ (by simp) ih
    by_cases h6 : c = '\n'
    · subst h6
      have he : brL (escChar '\n') = "<br/>".data := by decide
      rw [he]; exact SafeHtml.lineBreak _ ih
    · have he : brL (escChar c) = [c] := by
        simp [escChar, brCh, brL, h1, h2, h3, h4, h5, h6]
      rw [he]
      exact SafeHtml.plain c _ h1 h2 h3 h4 h5 ih

/-- The `safe_text` computed by `view` is markup-safe. -/
theorem safeHtml_safeText (s : String) : SafeHtml (safeText s).data :=
  safeHtml_brL_escapeL s.data

/-- Inserting a row whose token passes the duplicate check keeps tokens
pairwise distinct. -/
theorem tokens_nodup_append {db : List Message} {row : Message}
    (h : (db.map Message.token).Nodup)
    (hany : db.any (fun m => m.token == row.token) = false) :
    ((db ++ [row]).map Message.token).Nodup := by
  rw [List.map_append, List.nodup_append]
  refine ⟨h, by simp, ?_⟩
  simp only [List.map_cons, List.map_nil, List.disjoint_singleton]
  simp only [List.any_eq_false, beq_iff_eq] at hany
  intro hmem
  rcases List.mem_map.mp hmem with ⟨m, hm, heq⟩
  exact hany m hm heq

/-- Deleting rows keeps tokens pairwise distinct. -/
theorem tokens_nodup_delete {db : List Message} (tok : String)
    (h : (db.map Message.token).Nodup) :
    ((delete_message tok db).map Message.token).Nodup :=
  List.Nodup.sublist (List.Sublist.map Message.token (List.filter_sublist db)) h

end Helpers

section Fixtures

/-- A live record with a stored image file, used to instantiate theorems. -/
def rowA : Message :=
  { token := "t", recipient := "r@x", subject := "s", text := "hello",
    image_path := some "data/uploads/t.png", image_url := none,
    expires_at := 10, created_at := 0 }

/-- A live record with only an external image URL and markup in its text. -/
def rowB : Message :=
  { token := "u", recipient := "r@x", subject := "s", text := "a<b\nc",
    image_path := none, image_url := some "http://pics/x.png",
    expires_at := 10, created_at := 0 }

/-- A two-record server state with the file of `rowA` on disk. -/
def stAB : ServerState :=
  { db := [rowA, rowB], fs := ["data/uploads/t.png"], emails := [] }

/-- Send-request fixture with neither image source. -/
def argsNone : SendArgs :=
  { to_email := "a@b", text := "hi", ttl_seconds := 60, subject := "s",
    image := none, image_url := none }

/-- Send-request fixture with an uploaded image only. -/
def argsUp : SendArgs :=
  { to_email := "a@b", text := "hi", ttl_seconds := 100, subject := "s",
    image := some { filename := some "cat.png" }, image_url := none }

/-- Send-request fixture with an external image URL only. -/
def argsUrl : SendArgs :=
  { to_email := "a@b", text := "hi", ttl_seconds := 100, subject := "s",
    image := none, image_url := some "http://pics/x.png" }

/-- Send-request fixture supplying both image sources. -/
def argsBoth : SendArgs :=
  { to_email := "a@b", text := "hi", ttl_seconds := 100, subject := "s",
    image := some { filename := some "cat.png" },
    image_url := some "http://pics/x.png" }

/-- State after a successful URL-only send of `argsUrl`. -/
def stUrl : ServerState := (send_link argsUrl "tok" 0 true initialState).2

/-- State after a successful upload-only send of `argsUp`. -/
def stUp : ServerState := (send_link argsUp "tok" 0 true initialState).2

/-- State after a successful send of `argsBoth`. -/
def stBoth : ServerState := (send_link argsBoth "tok" 0 true initialState).2

end Fixtures

/-- C2: for every token, both the view and the image endpoint respond 404 when
no record with that token exists, and respond 410 when a record exists whose
expiration timestamp has passed, deleting the expired record from the database
as part of that same access. -/
theorem c2_missing_and_expired (st : ServerState) (tok : String) (now : Int) :
    (fetch_message tok st.db = none →
      view now tok st = (.notFound, st)
      ∧ get_image now tok st = (.notFound, st)
      ∧ viewStatus (view now tok st).1 = 404
      ∧ imageStatus (get_image now tok st).1 = 404)
    ∧ (∀ row : Message, fetch_message tok st.db = some row → row.expires_at < now →
      view now tok st = (.gone expiredHtml, { st with db := delete_message tok st.db })
      ∧ get_image now tok st = (.gone, { st with db := delete_message tok st.db })
      ∧ viewStatus (view now tok st).1 = 410
      ∧ imageStatus (get_image now tok st).1 = 410
      ∧ fetch_message tok (view now tok st).2.db = none
      ∧ fetch_message tok (get_image now tok st).2.db = none) := by
  constructor
  · intro hf
    refine ⟨view_missing hf, get_image_missing hf, ?_, ?_⟩
    · rw [view_missing hf]; rfl
    · rw [get_image_missing hf]; rfl
  · intro row hf hexp
    refine ⟨view_expired hf hexp, get_image_expired hf hexp, ?_, ?_, ?_, ?_⟩
    · rw [view_expired hf hexp]; rfl
    · rw [get_image_expired hf hexp]; rfl
    · rw [view_expired hf hexp]; exact fetch_message_delete tok st.db
    · rw [get_image_expired hf hexp]; exact fetch_message_delete tok st.db

/-- Witness for C2 at a concrete state: an unknown token gives 404 on both
endpoints; the expired record `rowA` at time 11 gives 410 and is deleted. -/
theorem c2_missing_and_expired_witness :
    (view 11 "zz" stAB = (.notFound, stAB)
      ∧ get_image 11 "zz" stAB = (.notFound, stAB)
      ∧ viewStatus (view 11 "zz" stAB).1 = 404
      ∧ imageStatus (get_image 11 "zz" stAB).1 = 404)
    ∧ (view 11 "t" stAB = (.gone expiredHtml, { stAB with db := delete_message "t" stAB.db })
      ∧ get_image 11 "t" stAB = (.gone, { stAB with db := delete_message "t" stAB.db })
      ∧ viewStatus (view 11 "t" stAB).1 = 410
      ∧ imageStatus (get_image 11 "t" stAB).1 = 410
      ∧ fetch_message "t" (view 11 "t" stAB).2.db = none
      ∧ fetch_message "t" (get_image 11 "t" stAB).2.db = none) :=
  ⟨(c2_missing_and_expired stAB "zz" 11).1 (by decide),
   (c2_missing_and_expired stAB "t" 11).2 rowA (by decide) (by decide)⟩

/-- C3: for every stored message text rendered by the view endpoint, the page
embeds the text only after HTML-escaping it and turning newlines into `<br/>`,
and the resulting character data is markup-safe: every `<`, `>`, `&`, `"` or
apostrophe in it belongs to one of the five escape entities or to the `<br/>`
line break, so no markup from the stored text survives unescaped. -/
theorem c3_view_escapes (st : ServerState) (tok : String) (now : Int) (row : Message)
    (hf : fetch_message tok st.db = some row) (hlive : ¬ row.expires_at < now) :
    (view now tok st).1 = .page (viewHtml (imgSrc row.image_url tok) (safeText row.text))
    ∧ safeText row.text = nlToBr (escape row.text)
    ∧ SafeHtml (safeText row.text).data := by
  refine ⟨?_, rfl, safeHtml_safeText row.text⟩
  rw [view_live hf hlive]

/-- Witness for C3 at `rowB`, whose text `"a<b\nc"` contains markup and a
newline. -/
theorem c3_view_escapes_witness :
    (view 5 "u" stAB).1 = .page (viewHtml (imgSrc rowB.image_url "u") (safeText rowB.text))
    ∧ safeText rowB.text = nlToBr (escape rowB.text)
    ∧ SafeHtml (safeText rowB.text).data :=
  c3_view_escapes stAB "u" 5 rowB (by decide) (by decide)

/-- C5: a send request that supplies neither an uploaded image file nor a
(nonempty) image URL is rejected with HTTP 400, and the whole state — database
rows, stored files, and sent emails — is left untouched. -/
theorem c5_reject_without_source (args : SendArgs) (tok : String) (now : Int)
    (emailOk : Bool) (st : ServerState)
    (h1 : args.image = none) (h2 : strTruthy args.image_url = false) :
    send_link args tok now emailOk st = (.badRequest, st)
    ∧ (send_link args tok now emailOk st).2.db = st.db
    ∧ (send_link args tok now emailOk st).2.fs = st.fs
    ∧ (send_link args tok now emailOk st).2.emails = st.emails := by
  have h : send_link args tok now emailOk st = (.badRequest, st) := by
    rw [send_link]
    rw [if_pos (by simp [h1, h2])]
  exact ⟨h, by rw [h], by rw [h], by rw [h]⟩

/-- Witness for C5: a send with no upload and a `None` URL against `stAB`. -/
theorem c5_reject_without_source_witness :
    send_link argsNone "tok" 0 true stAB = (.badRequest, stAB)
    ∧ (send_link argsNone "tok" 0 true stAB).2.db = stAB.db
    ∧ (send_link argsNone "tok" 0 true stAB).2.fs = stAB.fs
    ∧ (send_link argsNone "tok" 0 true stAB).2.emails = stAB.emails :=
  c5_reject_without_source argsNone "tok" 0 true stAB rfl rfl

/-- C7: for a record that exists and is not expired but has no stored image
file (no recorded path, or a recorded path that does not exist on disk), the
image endpoint responds 404 and leaves the whole state unchanged. -/
theorem c7_no_stored_file (st : ServerState) (tok : String) (now : Int) (row : Message)
    (hf : fetch_message tok st.db = some row) (hlive : ¬ row.expires_at < now)
    (hno : row.image_path = none ∨ ∃ p, row.image_path = some p ∧ p ∉ st.fs) :
    get_image now tok st = (.noStoredImage, st)
    ∧ imageStatus (get_image now tok st).1 = 404 := by
  have h : get_image now tok st = (.noStoredImage, st) := by
    rcases hno with hn | ⟨p, hp, hnfs⟩
    · simp [get_image, hf, hlive, hn]
    · have hc : st.fs.contains p = false := by simpa using hnfs
      by_cases hpe : p = ""
      · simp [get_image, hf, hlive, hp, hpe]
      · simp [get_image, hf, hlive, hp, hpe, hc, hnfs]
  exact ⟨h, by rw [h]; rfl⟩

/-- Witness for C7 at `rowB`, which is live at time 5 and has no recorded
image path. -/
theorem c7_no_stored_file_witness :
    get_image 5 "u" stAB = (.noStoredImage, stAB)
    ∧ imageStatus (get_image 5 "u" stAB).1 = 404 :=
  c7_no_stored_file stAB "u" 5 rowB (by decide) (by decide) (Or.inl (by decide))

/-- C8: for every existing, unexpired record, the view page's image source is
the record's external image URL whenever a nonempty one is recorded, and the
same-origin link `/image/{token}` otherwise (no URL recorded, or the empty
string, which the code treats as absent). -/
theorem c8_image_source (st : ServerState) (tok : String) (now : Int) (row : Message)
    (hf : fetch_message tok st.db = some row) (hlive : ¬ row.expires_at < now) :
    (view now tok st).1 = .page (viewHtml (imgSrc row.image_url tok) (safeText row.text))
    ∧ (∀ u, row.image_url = some u → u ≠ "" → imgSrc row.image_url tok = u)
    ∧ (strTruthy row.image_url = false → imgSrc row.image_url tok = "/image/" ++ tok) := by
  refine ⟨by rw [view_live hf hlive], ?_, ?_⟩
  · intro u hu hne
    simp [imgSrc, hu, hne]
  · intro hfalse
    rcases hurl : row.image_url with _ | u
    · simp [imgSrc]
    · rw [hurl] at hfalse
      simp [strTruthy] at hfalse
      simp [imgSrc, hfalse]

/-- Witness for C8 at `rowB` (nonempty recorded URL) at time 5. -/
theorem c8_image_source_witness :
    (view 5 "u" stAB).1 = .page (viewHtml (imgSrc rowB.image_url "u") (safeText rowB.text))
    ∧ imgSrc rowB.image_url "u" = "http://pics/x.png" :=
  ⟨(c8_image_source stAB "u" 5 rowB (by decide) (by decide)).1,
   (c8_image_source stAB "u" 5 rowB (by decide) (by decide)).2.1
     "http://pics/x.png" rfl (by decide)⟩

/-- C6: starting from a table whose tokens are pairwise distinct (the `token`
column is the primary key, so the insert of `send_link` fails on a duplicate),
every endpoint preserves that uniqueness invariant. The token value itself is
an input here, standing for `secrets.token_urlsafe(24)`; its cryptographic
unguessability is a property of the Python standard library outside this
embedding. -/
theorem c6_token_uniqueness (st : ServerState) (args : SendArgs) (tok tok2 : String)
    (now t : Int) (emailOk : Bool) (h : tokensNodup st) :
    tokensNodup (send_link args tok now emailOk st).2
    ∧ tokensNodup (view t tok2 st).2
    ∧ tokensNodup (get_image t tok2 st).2 := by
  refine ⟨?_, ?_, ?_⟩
  · by_cases h1 : (args.image.isNone && !(strTruthy args.image_url)) = true
    · rw [send_link, if_pos h1]
      exact h
    · have h1' : (args.image.isNone && !(strTruthy args.image_url)) = false :=
        eq_false_of_ne_true h1
      by_cases hfresh : fetch_message tok st.db = none
      · rw [send_link_state args tok now emailOk st h1' hfresh]
        exact tokens_nodup_append h
          ((fetch_none_iff_any_false tok st.db).mp hfresh)
      · have hany : st.db.any (fun m => m.token == tok) = true := by
          rcases hb : st.db.any (fun m => m.token == tok) with _ | _
          · exact absurd ((fetch_none_iff_any_false tok st.db).mpr hb) hfresh
          · rfl
        rw [send_link_collision args tok now emailOk st h1' hany]
        exact h
  · rcases hfm : fetch_message tok2 st.db with _ | row
    · rw [view_missing hfm]
      exact h
    · by_cases hexp : row.expires_at < t
      · rw [view_expired hfm hexp]
        exact tokens_nodup_delete tok2 h
      · rw [view_live hfm hexp]
        exact h
  · rcases hfm : fetch_message tok2 st.db with _ | row
    · rw [get_image_missing hfm]
      exact h
    · by_cases hexp : row.expires_at < t
      · rw [get_image_expired hfm hexp]
        exact tokens_nodup_delete tok2 h
      · rw [get_image_live_state hfm hexp]
        exact h

/-- Witness for C6: uniqueness is preserved across a send (fresh token), a
view and an image fetch on the two-record state `stAB`. -/
theorem c6_token_uniqueness_witness :
    tokensNodup (send_link argsUp "tok" 0 true stAB).2
    ∧ tokensNodup (view 11 "t" stAB).2
    ∧ tokensNodup (get_image 5 "t" stAB).2 :=
  ⟨(c6_token_uniqueness stAB argsUp "tok" "t" 0 11 true (by decide)).1,
   (c6_token_uniqueness stAB argsUp "tok" "t" 0 11 true (by decide)).2.1,
   (c6_token_uniqueness stAB argsUp "tok" "t" 0 5 true (by decide)).2.2⟩

/-- C9: when the email provider call raises during a send, the request fails
(`emailFailed` propagates), but the row has already been inserted and any
uploaded file already written, and neither is rolled back: no email is logged,
yet the generated link remains fully viewable before its expiry. -/
theorem c9_email_failure_persists (args : SendArgs) (tok : String) (now : Int)
    (st : ServerState)
    (himg : (args.image.isNone && !(strTruthy args.image_url)) = false)
    (hfresh : fetch_message tok st.db = none) :
    (send_link args tok now false st).1 = .emailFailed
    ∧ fetch_message tok (send_link args tok now false st).2.db = some (sendRow args tok now)
    ∧ (send_link args tok now false st).2.emails = st.emails
    ∧ (∀ img, args.image = some img →
        uploadPath tok img ∈ (send_link args tok now false st).2.fs)
    ∧ (∀ t : Int, ¬ (now + args.ttl_seconds < t) →
        (view t tok (send_link args tok now false st).2).1 =
          .page (viewHtml (imgSrc args.image_url tok) (safeText args.text))) := by
  have hs := send_link_state_fail args tok now st himg hfresh
  have hdb : (send_link args tok now false st).2.db = st.db ++ [sendRow args tok now] := by
    rw [hs]
  have hfetchS : fetch_message tok (send_link args tok now false st).2.db =
      some (sendRow args tok now) := by
    rw [hdb]
    exact fetch_send hfresh rfl
  refine ⟨by rw [hs], hfetchS, by rw [hs], ?_, ?_⟩
  · intro img himg2
    have hfs : (send_link args tok now false st).2.fs = sendFs args tok st.fs := by
      rw [hs]
    rw [hfs]
    simp [sendFs, sendImagePath, himg2]
  · intro t ht
    have hlive : ¬ (sendRow args tok now).expires_at < t := ht
    rw [view_live hfetchS hlive]
    rfl

/-- Witness for C9: an upload-only send with a failing provider at time 0;
the link is viewable at time 100. -/
theorem c9_email_failure_persists_witness :
    (send_link argsUp "tok" 0 false initialState).1 = .emailFailed
    ∧ fetch_message "tok" (send_link argsUp "tok" 0 false initialState).2.db =
        some (sendRow argsUp "tok" 0)
    ∧ (send_link argsUp "tok" 0 false initialState).2.emails = initialState.emails
    ∧ uploadPath "tok" { filename := some "cat.png" } ∈
        (send_link argsUp "tok" 0 false initialState).2.fs
    ∧ (view 100 "tok" (send_link argsUp "tok" 0 false initialState).2).1 =
        .page (viewHtml (imgSrc argsUp.image_url "tok") (safeText argsUp.text)) :=
  ⟨(c9_email_failure_persists argsUp "tok" 0 initialState (by decide) (by decide)).1,
   (c9_email_failure_persists argsUp "tok" 0 initialState (by decide) (by decide)).2.1,
   (c9_email_failure_persists argsUp "tok" 0 initialState (by decide) (by decide)).2.2.1,
   (c9_email_failure_persists argsUp "tok" 0 initialState (by decide) (by decide)).2.2.2.1
     { filename := some "cat.png" } rfl,
   (c9_email_failure_persists argsUp "tok" 0 initialState (by decide) (by decide)).2.2.2.2
     100 (by decide)⟩

/-- C10: expiry-triggered deletion removes only the database row. After the
410 access the stored file's path is still on disk, the row is gone, and both
endpoints report 404 for the token at any later time, from either the
view-deleted or the image-deleted state. -/
theorem c10_delete_keeps_file (st : ServerState) (tok : String) (now t2 : Int)
    (row : Message) (p : String)
    (hf : fetch_message tok st.db = some row) (_hp : row.image_path = some p)
    (hfs : p ∈ st.fs) (hexp : row.expires_at < now) :
    view now tok st = (.gone expiredHtml, { st with db := delete_message tok st.db })
    ∧ get_image now tok st = (.gone, { st with db := delete_message tok st.db })
    ∧ (view now tok st).2.fs = st.fs
    ∧ (get_image now tok st).2.fs = st.fs
    ∧ p ∈ (view now tok st).2.fs
    ∧ fetch_message tok (view now tok st).2.db = none
    ∧ (view t2 tok (view now tok st).2).1 = .notFound
    ∧ (get_image t2 tok (view now tok st).2).1 = .notFound
    ∧ (view t2 tok (get_image now tok st).2).1 = .notFound
    ∧ (get_image t2 tok (get_image now tok st).2).1 = .notFound := by
  have hv := view_expired hf hexp
  have hg := get_image_expired hf hexp
  have hd : fetch_message tok (delete_message tok st.db) = none :=
    fetch_message_delete tok st.db
  rw [hv, hg]
  exact ⟨rfl, rfl, rfl, rfl, hfs, hd,
    by rw [view_missing hd], by rw [get_image_missing hd],
    by rw [view_missing hd], by rw [get_image_missing hd]⟩

/-- Witness for C10: `rowA` expires at 10; access at 11 deletes the row while
`data/uploads/t.png` stays on disk, and both endpoints 404 at time 12. -/
theorem c10_delete_keeps_file_witness :
    view 11 "t" stAB = (.gone expiredHtml, { stAB with db := delete_message "t" stAB.db })
    ∧ get_image 11 "t" stAB = (.gone, { stAB with db := delete_message "t" stAB.db })
    ∧ (view 11 "t" stAB).2.fs = stAB.fs
    ∧ (get_image 11 "t" stAB).2.fs = stAB.fs
    ∧ "data/uploads/t.png" ∈ (view 11 "t" stAB).2.fs
    ∧ fetch_message "t" (view 11 "t" stAB).2.db = none
    ∧ (view 12 "t" (view 11 "t" stAB).2).1 = .notFound
    ∧ (get_image 12 "t" (view 11 "t" stAB).2).1 = .notFound
    ∧ (view 12 "t" (get_image 11 "t" stAB).2).1 = .notFound
    ∧ (get_image 12 "t" (get_image 11 "t" stAB).2).1 = .notFound :=
  c10_delete_keeps_file stAB "t" 11 12 rowA "data/uploads/t.png"
    (by decide) (by decide) (by decide) (by decide)

/-- C1 counterexample: a record created by the send endpoint with ttl 100 and
only an external image URL is NOT served by the image endpoint before its
expiry — at time 50 (strictly before creation time 0 plus 100) `GET /image`
answers 404 with no stored image, refuting "the view and image endpoints serve
the record on any access strictly before creation time plus T elapses". -/
theorem c1_counterexample :
    (send_link argsUrl "tok" 0 true initialState).1 = .sent (viewLink "tok") 100
    ∧ (get_image 50 "tok" stUrl).1 = .noStoredImage
    ∧ imageStatus (get_image 50 "tok" stUrl).1 = 404 := by
  refine ⟨rfl, rfl, rfl⟩

/-- C1 (amended): for every record created by the send endpoint with ttl T,
the view endpoint serves the record on any access strictly before creation
time plus T, and the image endpoint serves the stored file on such accesses
whenever the record was created with an uploaded image (a URL-only record
gets 404 from the image endpoint, see C7); on the first access after creation
time plus T elapses, either endpoint responds 410 Gone and deletes the record,
so subsequent accesses respond 404. -/
theorem c1_ttl_lifecycle (args : SendArgs) (tok : String) (now : Int)
    (st : ServerState)
    (himg : (args.image.isNone && !(strTruthy args.image_url)) = false)
    (hfresh : fetch_message tok st.db = none) :
    (send_link args tok now true st).1 = .sent (viewLink tok) (now + args.ttl_seconds)
    ∧ fetch_message tok (send_link args tok now true st).2.db = some (sendRow args tok now)
    ∧ (sendRow args tok now).created_at = now
    ∧ (sendRow args tok now).expires_at = now + args.ttl_seconds
    ∧ (∀ t : Int, t < now + args.ttl_seconds →
        view t tok (send_link args tok now true st).2 =
          (.page (viewHtml (imgSrc args.image_url tok) (safeText args.text)),
            (send_link args tok now true st).2)
        ∧ (∀ img, args.image = some img →
            get_image t tok (send_link args tok now true st).2 =
              (.file (uploadPath tok img), (send_link args tok now true st).2)))
    ∧ (∀ t : Int, now + args.ttl_seconds < t →
        (view t tok (send_link args tok now true st).2).1 = .gone expiredHtml
        ∧ (get_image t tok (send_link args tok now true st).2).1 = .gone
        ∧ fetch_message tok (view t tok (send_link args tok now true st).2).2.db = none
        ∧ fetch_message tok (get_image t tok (send_link args tok now true st).2).2.db = none
        ∧ (∀ t2 : Int,
            (view t2 tok (view t tok (send_link args tok now true st).2).2).1 = .notFound
            ∧ (get_image t2 tok (view t tok (send_link args tok now true st).2).2).1 = .notFound
            ∧ (view t2 tok (get_image t tok (send_link args tok now true st).2).2).1 = .notFound
            ∧ (get_image t2 tok (get_image t tok (send_link args tok now true st).2).2).1 = .notFound)) := by
  have hs := send_link_state_ok args tok now st himg hfresh
  have hdb : (send_link args tok now true st).2.db = st.db ++ [sendRow args tok now] := by
    rw [hs]
  have hfsS : (send_link args tok now true st).2.fs = sendFs args tok st.fs := by
    rw [hs]
  have hfetchS : fetch_message tok (send_link args tok now true st).2.db =
      some (sendRow args tok now) := by
    rw [hdb]
    exact fetch_send hfresh rfl
  refine ⟨by rw [hs], hfetchS, rfl, rfl, ?_, ?_⟩
  · intro t ht
    have hlive : ¬ (sendRow args tok now).expires_at < t := by
      show ¬ now + args.ttl_seconds < t
      omega
    constructor
    · rw [view_live hfetchS hlive]
      rfl
    · intro img himg2
      have hpath : (sendRow args tok now).image_path = some (uploadPath tok img) := by
        simp [sendRow, sendImagePath, himg2]
      have hmem : uploadPath tok img ∈ (send_link args tok now true st).2.fs := by
        rw [hfsS]
        simp [sendFs, sendImagePath, himg2]
      exact get_image_file hfetchS hlive hpath (uploadPath_ne_empty tok img) hmem
  · intro t ht
    have hexp : (sendRow args tok now).expires_at < t := ht
    have hv := view_expired hfetchS hexp
    have hg := get_image_expired hfetchS hexp
    have hd : fetch_message tok
        (delete_message tok (send_link args tok now true st).2.db) = none :=
      fetch_message_delete tok (send_link args tok now true st).2.db
    rw [hv, hg]
    refine ⟨rfl, rfl, hd, hd, ?_⟩
    intro t2
    exact ⟨by rw [view_missing hd], by rw [get_image_missing hd],
      by rw [view_missing hd], by rw [get_image_missing hd]⟩

/-- Witness for the amended C1: upload-only send of `argsUp` (ttl 100) at
time 0; served at 50 (view and image), 410-and-deleted at 200, 404 at 300. -/
theorem c1_ttl_lifecycle_witness :
    (send_link argsUp "tok" 0 true initialState).1 = .sent (viewLink "tok") (0 + argsUp.ttl_seconds)
    ∧ fetch_message "tok" stUp.db = some (sendRow argsUp "tok" 0)
    ∧ (view 50 "tok" stUp =
        (.page (viewHtml (imgSrc argsUp.image_url "tok") (safeText argsUp.text)), stUp)
      ∧ get_image 50 "tok" stUp =
        (.file (uploadPath "tok" { filename := some "cat.png" }), stUp))
    ∧ ((view 200 "tok" stUp).1 = .gone expiredHtml
      ∧ (get_image 200 "tok" stUp).1 = .gone
      ∧ fetch_message "tok" (view 200 "tok" stUp).2.db = none
      ∧ (view 300 "tok" (view 200 "tok" stUp).2).1 = .notFound
      ∧ (get_image 300 "tok" (view 200 "tok" stUp).2).1 = .notFound) :=
  ⟨(c1_ttl_lifecycle argsUp "tok" 0 initialState (by decide) (by decide)).1,
   (c1_ttl_lifecycle argsUp "tok" 0 initialState (by decide) (by decide)).2.1,
   ⟨((c1_ttl_lifecycle argsUp "tok" 0 initialState (by decide) (by decide)).2.2.2.2.1
       50 (by decide)).1,
    ((c1_ttl_lifecycle argsUp "tok" 0 initialState (by decide) (by decide)).2.2.2.2.1
       50 (by decide)).2 { filename := some "cat.png" } rfl⟩,
   ⟨((c1_ttl_lifecycle argsUp "tok" 0 initialState (by decide) (by decide)).2.2.2.2.2
       200 (by decide)).1,
    ((c1_ttl_lifecycle argsUp "tok" 0 initialState (by decide) (by decide)).2.2.2.2.2
       200 (by decide)).2.1,
    ((c1_ttl_lifecycle argsUp "tok" 0 initialState (by decide) (by decide)).2.2.2.2.2
       200 (by decide)).2.2.1,
    (((c1_ttl_lifecycle argsUp "tok" 0 initialState (by decide) (by decide)).2.2.2.2.2
       200 (by decide)).2.2.2.2 300).1,
    (((c1_ttl_lifecycle argsUp "tok" 0 initialState (by decide) (by decide)).2.2.2.2.2
       200 (by decide)).2.2.2.2 300).2.1⟩⟩

/-- C4 counterexample: a send supplying BOTH an uploaded image and an external
image URL succeeds, persists the uploaded file under the token-derived path,
AND records the external URL on the same record — refuting "no successful
send both persists an uploaded file and records an external image URL". -/
theorem c4_counterexample :
    (send_link argsBoth "tok" 0 true initialState).1 = .sent (viewLink "tok") 100
    ∧ fetch_message "tok" stBoth.db =
        some { token := "tok", recipient := "a@b", subject := "s", text := "hi",
               image_path := some "data/uploads/tok.png",
               image_url := some "http://pics/x.png",
               expires_at := 100, created_at := 0 }
    ∧ "data/uploads/tok.png" ∈ stBoth.fs := by
  refine ⟨rfl, rfl, by decide⟩

/-- C4 (amended): a send request supplying neither an uploaded image nor a
(nonempty) image URL is rejected with 400; exactly-one is not enforced — a
successful send supplying both sources persists the uploaded file and records
the external URL on the same record, and the view page then uses only the
external URL whenever it is nonempty. -/
theorem c4_image_sources (args : SendArgs) (tok : String) (now : Int)
    (emailOk : Bool) (st : ServerState) :
    (args.image = none → strTruthy args.image_url = false →
        send_link args tok now emailOk st = (.badRequest, st))
    ∧ (∀ img url, args.image = some img → args.image_url = some url →
        fetch_message tok st.db = none →
        fetch_message tok (send_link args tok now emailOk st).2.db =
            some (sendRow args tok now)
        ∧ (sendRow args tok now).image_path = some (uploadPath tok img)
        ∧ (sendRow args tok now).image_url = some url
        ∧ uploadPath tok img ∈ (send_link args tok now emailOk st).2.fs
        ∧ (url ≠ "" → imgSrc (some url) tok = url)) := by
  constructor
  · intro h1 h2
    rw [send_link, if_pos (by simp [h1, h2])]
  · intro img url himg2 hurl hfresh
    have himg : (args.image.isNone && !(strTruthy args.image_url)) = false := by
      simp [himg2]
    have hs := send_link_state args tok now emailOk st himg hfresh
    have hdb : (send_link args tok now emailOk st).2.db =
        st.db ++ [sendRow args tok now] := by rw [hs]
    have hfs : (send_link args tok now emailOk st).2.fs = sendFs args tok st.fs := by
      rw [hs]
    refine ⟨by rw [hdb]; exact fetch_send hfresh rfl, ?_, ?_, ?_, ?_⟩
    · simp [sendRow, sendImagePath, himg2]
    · simp [sendRow, hurl]
    · rw [hfs]
      simp [sendFs, sendImagePath, himg2]
    · intro hne
      simp [imgSrc, hne]

/-- Witness for the amended C4: `argsNone` is rejected against `stAB`;
`argsBoth` from the empty state stores both the file and the URL, and the
page prefers the URL. -/
theorem c4_image_sources_witness :
    send_link argsNone "zz" 0 true stAB = (.badRequest, stAB)
    ∧ (fetch_message "tok" (send_link argsBoth "tok" 0 true initialState).2.db =
          some (sendRow argsBoth "tok" 0)
      ∧ (sendRow argsBoth "tok" 0).image_path =
          some (uploadPath "tok" { filename := some "cat.png" })
      ∧ (sendRow argsBoth "tok" 0).image_url = some "http://pics/x.png"
      ∧ uploadPath "tok" { filename := some "cat.png" } ∈
          (send_link argsBoth "tok" 0 true initialState).2.fs
      ∧ imgSrc (some "http://pics/x.png") "tok" = "http://pics/x.png") :=
  ⟨(c4_image_sources argsNone "zz" 0 true stAB).1 rfl rfl,
   (fun h => ⟨h.1, h.2.1, h.2.2.1, h.2.2.2.1, h.2.2.2.2 (by decide)⟩)
     ((c4_image_sources argsBoth "tok" 0 true initialState).2
       { filename := some "cat.png" } "http://pics/x.png" rfl rfl (by decide))⟩

end Azsure
